import Mathlib

/-!
Verification of the sequential endpoint prober `src/test-api.py`.

The script issues five fixed HTTP requests (register, login, get-profile,
save-structure, get-structures) against a fixed base address, prints a
summary after each call, and wraps the whole sequence in a single
`try/except Exception` block.  We embed it shallowly: JSON-like Python
values become an inductive `Json`; the fallible Python primitives the
script uses (`dict.get`, `len`, iteration, `response.json()`) become
`Except String`-valued functions; the backend becomes a function from the
request issued to the outcome of that call; the run produces a `Trace`
recording every request attempted and every `print` executed, each print
as a structured `Line` together with an exact string rendering.
-/

/-- JSON-like Python values, as produced by `response.json()` and used in
request payloads.  Numbers are modelled as integers (every literal in the
script is an integer). -/
inductive Json where
  | null : Json
  | bool (b : Bool) : Json
  | num (n : Int) : Json
  | str (s : String) : Json
  | arr (xs : List Json) : Json
  | obj (kvs : List (String × Json)) : Json

mutual

/-- Python `repr` of a JSON-like value (used by `str`/f-strings for
containers, and for values nested inside containers). -/
def pyRepr : Json → String
  | Json.null => "None"
  | Json.bool true => "True"
  | Json.bool false => "False"
  | Json.num n => toString n
  | Json.str s => "\x27" ++ s ++ "\x27"
  | Json.arr xs => "[" ++ pyReprSeq xs ++ "]"
  | Json.obj kvs => "\x7b" ++ pyReprObj kvs ++ "\x7d"

/-- Comma-separated reprs of the elements of a Python list. -/
def pyReprSeq : List Json → String
  | [] => ""
  | [x] => pyRepr x
  | x :: y :: xs => pyRepr x ++ ", " ++ pyReprSeq (y :: xs)

/-- Comma-separated `key: value` reprs of the items of a Python dict. -/
def pyReprObj : List (String × Json) → String
  | [] => ""
  | [(k, v)] => "\x27" ++ k ++ "\x27: " ++ pyRepr v
  | (k, v) :: y :: xs => "\x27" ++ k ++ "\x27: " ++ pyRepr v ++ ", " ++ pyReprObj (y :: xs)

end

/-- Python `str()` as applied by an f-string: strings are inserted as-is,
`None` renders as `None`, everything else as its repr. -/
def pyStr : Json → String
  | Json.str s => s
  | v => pyRepr v

/-- Name of the Python type of a value, for exception texts. -/
def pyTypeName : Json → String
  | Json.null => "NoneType"
  | Json.bool _ => "bool"
  | Json.num _ => "int"
  | Json.str _ => "str"
  | Json.arr _ => "list"
  | Json.obj _ => "dict"

/-- Python `v.get(k, d)`: on a dict, the value at `k` (first binding) or
the default `d`; on anything else an `AttributeError`, as in
`data.get("user", {})` when `data` is not a dict. -/
def pyGetD (v : Json) (k : String) (d : Json) : Except String Json :=
  match v with
  | Json.obj kvs => Except.ok ((kvs.lookup k).getD d)
  | _ => Except.error
      ("\x27" ++ pyTypeName v ++ "\x27 object has no attribute \x27get\x27")

/-- Python `v.get(k)` with no default: absent keys yield `None`. -/
def pyGet (v : Json) (k : String) : Except String Json :=
  pyGetD v k Json.null

/-- Python `len(v)`: defined on lists, strings and dicts, a `TypeError`
otherwise. -/
def pyLen : Json → Except String Nat
  | Json.arr xs => Except.ok xs.length
  | Json.str s => Except.ok s.length
  | Json.obj kvs => Except.ok kvs.length
  | v => Except.error
      ("object of type \x27" ++ pyTypeName v ++ "\x27 has no len()")

/-- Python iteration as in `for i, s in enumerate(structures)`: lists give
their elements, strings their characters, dicts their keys; anything else
raises a `TypeError`. -/
def pyIter : Json → Except String (List Json)
  | Json.arr xs => Except.ok xs
  | Json.str s => Except.ok (s.toList.map fun c => Json.str (String.mk [c]))
  | Json.obj kvs => Except.ok (kvs.map fun kv => Json.str kv.fst)
  | v => Except.error ("\x27" ++ pyTypeName v ++ "\x27 object is not iterable")

/-- One HTTP request as issued by `requests.post`/`requests.get`:
method, URL, and the JSON payload for POSTs. -/
structure Request where
  method : String
  url : String
  payload : Option Json

/-- Outcome of attempting one HTTP call against the backend: either the
call raises (connection failure), or it returns a status code together
with the result of decoding the body (`response.json()` may itself
raise). -/
inductive CallOutcome where
  | raise (msg : String) : CallOutcome
  | response (status : Nat) (body : Except String Json) : CallOutcome

/-- The fixed base address of line 7 of the script. -/
def BASE_URL : String := "http://127.0.0.1:5000"

/-- Registration payload (lines 12-16). -/
def registerPayload : Json :=
  Json.obj [("fullName", Json.str "John Scientist"),
            ("email", Json.str "john@example.com"),
            ("password", Json.str "secure123")]

/-- Login payload (lines 23-26). -/
def loginPayload : Json :=
  Json.obj [("email", Json.str "john@example.com"),
            ("password", Json.str "secure123")]

/-- Save-structure payload (lines 42-53). -/
def savePayload : Json :=
  Json.obj [("name", Json.str "Water Molecule"),
            ("nodes", Json.arr
              [Json.obj [("id", Json.num 1), ("name", Json.str "O"),
                         ("x", Json.num 100), ("y", Json.num 100)],
               Json.obj [("id", Json.num 2), ("name", Json.str "H"),
                         ("x", Json.num 150), ("y", Json.num 80)],
               Json.obj [("id", Json.num 3), ("name", Json.str "H"),
                         ("x", Json.num 150), ("y", Json.num 120)]]),
            ("bonds", Json.arr
              [Json.obj [("from", Json.num 1), ("to", Json.num 2),
                         ("type", Json.str "single")],
               Json.obj [("from", Json.num 1), ("to", Json.num 3),
                         ("type", Json.str "single")]])]

/-- The request of step 1 (line 12). -/
def registerRequest : Request :=
  ⟨"POST", BASE_URL ++ "/api/register", some registerPayload⟩

/-- The request of step 2 (line 23). -/
def loginRequest : Request :=
  ⟨"POST", BASE_URL ++ "/api/login", some loginPayload⟩

/-- The request of step 3 (line 34). -/
def profileRequest : Request :=
  ⟨"GET", BASE_URL ++ "/api/user/john@example.com", none⟩

/-- The request of step 4 (line 42). -/
def saveStructureRequest : Request :=
  ⟨"POST", BASE_URL ++ "/api/user/john@example.com/save-structure", some savePayload⟩

/-- The request of step 5 (line 61). -/
def structuresRequest : Request :=
  ⟨"GET", BASE_URL ++ "/api/user/john@example.com/structures", none⟩

/-- The five requests of the script, in program order. -/
def fiveRequests : List Request :=
  [registerRequest, loginRequest, profileRequest, saveStructureRequest, structuresRequest]

/-- One executed `print` call, structured by which print statement of the
script produced it; `renderLine` recovers the exact printed string. -/
inductive Line where
  | banner : Line
  | stepHeader (s : String) : Line
  | status (code : Nat) : Line
  | rawResponse (body : Json) : Line
  | userLine (email fullName : Json) : Line
  | structureLine (name ident : Json) : Line
  | totalStructures (n : Nat) : Line
  | structureItem (pos : Nat) (name : Json) (nodeCount : Nat) : Line
  | blank : Line
  | success : Line
  | failure (msg : String) : Line

/-- The exact string passed to `print` for each line. -/
def renderLine : Line → String
  | Line.banner => "\n🌐 Testing API Endpoints...\n"
  | Line.stepHeader s => s
  | Line.status code => "   Status: " ++ toString code
  | Line.rawResponse body => "   Response: " ++ pyStr body
  | Line.userLine email fullName =>
      "   User: " ++ pyStr email ++ " - " ++ pyStr fullName
  | Line.structureLine name ident =>
      "   Structure: " ++ pyStr name ++ " (ID: " ++ pyStr ident ++ ")"
  | Line.totalStructures n => "   Total Structures: " ++ toString n
  | Line.structureItem pos name nodeCount =>
      "   [" ++ toString pos ++ "] " ++ pyStr name
        ++ " (" ++ toString nodeCount ++ " nodes)"
  | Line.blank => ""
  | Line.success => "✅ All API tests passed!\n"
  | Line.failure msg => "❌ Error: " ++ msg ++ "\n"

/-- Recognises the single failure print of the `except` clause (line 73). -/
def isFailLine : Line → Bool
  | Line.failure _ => true
  | _ => false

/-- Recognises a per-structure line of the step-5 loop (line 67). -/
def isItemLine : Line → Bool
  | Line.structureItem _ _ _ => true
  | _ => false

/-- The value printed by a `Total Structures` line, if this is one. -/
def totalValue : Line → Option Nat
  | Line.totalStructures n => some n
  | _ => none

/-- The rendered text of a per-structure line, if this is one. -/
def itemText : Line → Option String
  | Line.structureItem pos name nodeCount =>
      some (renderLine (Line.structureItem pos name nodeCount))
  | _ => none

/-- Everything the script did: the requests attempted, in order, and the
lines printed, in order. -/
structure Trace where
  requests : List Request
  output : List Line

/-- The headers printed at the start of each step (lines 11, 22, 33, 41, 60). -/
def header1 : String := "1️⃣ Testing Registration API..."

/-- Header of step 2. -/
def header2 : String := "2️⃣ Testing Login API..."

/-- Header of step 3. -/
def header3 : String := "3️⃣ Testing User Profile API..."

/-- Header of step 4. -/
def header4 : String := "4️⃣ Testing Save Structure API..."

/-- Header of step 5. -/
def header5 : String := "5️⃣ Testing Get Structures API..."

/-- Step 1 body projection (lines 17-19): after the status print, print the
whole decoded body and a blank line.  The status argument is unused, as in
the script, which only interpolates it into the status line. -/
def registerLines (_code : Nat) (body : Json) : Except (List Line × String) (List Line) :=
  Except.ok [Line.rawResponse body, Line.blank]

/-- Step 2 body projection (lines 28-30): evaluate
`data.get("user", {}).get("email")` then `data.get("user", {}).get("fullName")`
left to right, printing the user line only when both chains succeed. -/
def loginLines (_code : Nat) (body : Json) : Except (List Line × String) (List Line) :=
  match pyGetD body "user" (Json.obj []) with
  | Except.error m => Except.error ([], m)
  | Except.ok u =>
    match pyGet u "email" with
    | Except.error m => Except.error ([], m)
    | Except.ok email =>
      match pyGetD body "user" (Json.obj []) with
      | Except.error m => Except.error ([], m)
      | Except.ok u2 =>
        match pyGet u2 "fullName" with
        | Except.error m => Except.error ([], m)
        | Except.ok fullName =>
            Except.ok [Line.userLine email fullName, Line.blank]

/-- Step 3 body projection (lines 36-38): `data.get("email")` and
`data.get("fullName")`. -/
def profileLines (_code : Nat) (body : Json) : Except (List Line × String) (List Line) :=
  match pyGet body "email" with
  | Except.error m => Except.error ([], m)
  | Except.ok email =>
    match pyGet body "fullName" with
    | Except.error m => Except.error ([], m)
    | Except.ok fullName => Except.ok [Line.userLine email fullName, Line.blank]

/-- Step 4 body projection (lines 55-57):
`data.get("structure", {}).get("name")` then
`data.get("structure", {}).get("id")`. -/
def saveLines (_code : Nat) (body : Json) : Except (List Line × String) (List Line) :=
  match pyGetD body "structure" (Json.obj []) with
  | Except.error m => Except.error ([], m)
  | Except.ok st =>
    match pyGet st "name" with
    | Except.error m => Except.error ([], m)
    | Except.ok name =>
      match pyGetD body "structure" (Json.obj []) with
      | Except.error m => Except.error ([], m)
      | Except.ok st2 =>
        match pyGet st2 "id" with
        | Except.error m => Except.error ([], m)
        | Except.ok ident => Except.ok [Line.structureLine name ident, Line.blank]

/-- The loop of lines 66-67: for each entry `s` (0-based index `i`) print
`[i+1] {s.get("name")} ({len(s.get("data", {}).get("nodes", []))} nodes)`;
any failure aborts the loop, keeping the lines already printed. -/
def structuresLoop (i : Nat) : List Json → Except (List Line × String) (List Line)
  | [] => Except.ok []
  | s :: rest =>
    match pyGet s "name" with
    | Except.error m => Except.error ([], m)
    | Except.ok name =>
      match pyGetD s "data" (Json.obj []) with
      | Except.error m => Except.error ([], m)
      | Except.ok d =>
        match pyGetD d "nodes" (Json.arr []) with
        | Except.error m => Except.error ([], m)
        | Except.ok nodes =>
          match pyLen nodes with
          | Except.error m => Except.error ([], m)
          | Except.ok cnt =>
            match structuresLoop (i + 1) rest with
            | Except.error (ls, m) =>
                Except.error (Line.structureItem (i + 1) name cnt :: ls, m)
            | Except.ok ls => Except.ok (Line.structureItem (i + 1) name cnt :: ls)

/-- Step 5 body projection (lines 64-68): take
`structures = data.get("structures", [])`, print its length, then run the
per-structure loop and a final blank line. -/
def listLines (_code : Nat) (body : Json) : Except (List Line × String) (List Line) :=
  match pyGetD body "structures" (Json.arr []) with
  | Except.error m => Except.error ([], m)
  | Except.ok structures =>
    match pyLen structures with
    | Except.error m => Except.error ([], m)
    | Except.ok n =>
      match pyIter structures with
      | Except.error m => Except.error ([Line.totalStructures n], m)
      | Except.ok items =>
        match structuresLoop 0 items with
        | Except.error (ls, m) =>
            Except.error (Line.totalStructures n :: ls, m)
        | Except.ok ls =>
            Except.ok (Line.totalStructures n :: (ls ++ [Line.blank]))

/-- One step of the script: print the step header, attempt the call (the
request is recorded as attempted even if it raises), print the status,
decode the body, and run the step-specific projection `k`.  On any raise
the partial output is kept and the exception text is propagated to the
catch-all. -/
def runStep (backend : Request → CallOutcome) (header : String) (req : Request)
    (k : Nat → Json → Except (List Line × String) (List Line))
    (t : Trace) : Except (Trace × String) Trace :=
  match backend req with
  | CallOutcome.raise msg =>
      Except.error (⟨t.requests ++ [req], t.output ++ [Line.stepHeader header]⟩, msg)
  | CallOutcome.response code bodyRes =>
    match bodyRes with
    | Except.error msg =>
        Except.error (⟨t.requests ++ [req],
          t.output ++ [Line.stepHeader header, Line.status code]⟩, msg)
    | Except.ok body =>
      match k code body with
      | Except.error (ls, msg) =>
          Except.error (⟨t.requests ++ [req],
            t.output ++ (Line.stepHeader header :: Line.status code :: ls)⟩, msg)
      | Except.ok ls =>
          Except.ok ⟨t.requests ++ [req],
            t.output ++ (Line.stepHeader header :: Line.status code :: ls)⟩

/-- Step 1: Register (lines 10-19). -/
def step1 (backend : Request → CallOutcome) : Trace → Except (Trace × String) Trace :=
  runStep backend header1 registerRequest registerLines

/-- Step 2: Login (lines 21-30). -/
def step2 (backend : Request → CallOutcome) : Trace → Except (Trace × String) Trace :=
  runStep backend header2 loginRequest loginLines

/-- Step 3: Get Profile (lines 32-38). -/
def step3 (backend : Request → CallOutcome) : Trace → Except (Trace × String) Trace :=
  runStep backend header3 profileRequest profileLines

/-- Step 4: Save Structure (lines 40-57). -/
def step4 (backend : Request → CallOutcome) : Trace → Except (Trace × String) Trace :=
  runStep backend header4 saveStructureRequest saveLines

/-- Step 5: Get Structures (lines 59-68). -/
def step5 (backend : Request → CallOutcome) : Trace → Except (Trace × String) Trace :=
  runStep backend header5 structuresRequest listLines

/-- The trace after line 4's banner print, before the `try` block. -/
def initTrace : Trace := ⟨[], [Line.banner]⟩

/-- The body of the `try` block (lines 10-70 up to, not including, the
success print): the five steps run in order; the first raise aborts the
rest and surfaces the partial trace together with the exception text. -/
def runSeq (backend : Request → CallOutcome) : Except (Trace × String) Trace :=
  match step1 backend initTrace with
  | Except.error e => Except.error e
  | Except.ok t1 =>
    match step2 backend t1 with
    | Except.error e => Except.error e
    | Except.ok t2 =>
      match step3 backend t2 with
      | Except.error e => Except.error e
      | Except.ok t3 =>
        match step4 backend t3 with
        | Except.error e => Except.error e
        | Except.ok t4 => step5 backend t4

/-- The whole script run against a backend: on normal completion of the
five steps the success banner of line 70 is printed; on any exception the
`except` clause of lines 72-73 prints the single failure message. -/
def run (backend : Request → CallOutcome) : Trace :=
  match runSeq backend with
  | Except.ok t => ⟨t.requests, t.output ++ [Line.success]⟩
  | Except.error (t, msg) => ⟨t.requests, t.output ++ [Line.failure msg]⟩

/-- The module viewed as a fallible computation: an uncaught exception
would surface as `Except.error`, but the `except Exception` clause handles
every exception and itself only prints, so both branches return normally. -/
def moduleResult (backend : Request → CallOutcome) : Except String Trace :=
  match runSeq backend with
  | Except.ok t => Except.ok ⟨t.requests, t.output ++ [Line.success]⟩
  | Except.error (t, msg) => Except.ok ⟨t.requests, t.output ++ [Line.failure msg]⟩

/-- Process exit status of a Python script: 0 on normal completion, 1 when
an exception propagates uncaught. -/
def exitCode : Except String Trace → Nat
  | Except.ok _ => 0
  | Except.error _ => 1

/-- A key of an entry of the step-5 `structures` list is readable the way
the loop body reads it exactly when each stage of
`len(s.get("data", {}).get("nodes", []))` and `s.get("name")` succeeds. -/
def entryOk (s : Json) : Bool :=
  match pyGet s "name" with
  | Except.error _ => false
  | Except.ok _ =>
    match pyGetD s "data" (Json.obj []) with
    | Except.error _ => false
    | Except.ok d =>
      match pyGetD d "nodes" (Json.arr []) with
      | Except.error _ => false
      | Except.ok nodes =>
        match pyLen nodes with
        | Except.error _ => false
        | Except.ok _ => true

/-- The `name` the loop body prints for an entry (`None` when absent;
meaningful when `entryOk`). -/
def entryName (s : Json) : Json :=
  match pyGet s "name" with
  | Except.error _ => Json.null
  | Except.ok v => v

/-- The node count the loop body prints for an entry (0 as a dummy on the
failing cases; meaningful when `entryOk`). -/
def entryNodeCount (s : Json) : Nat :=
  match pyGetD s "data" (Json.obj []) with
  | Except.error _ => 0
  | Except.ok d =>
    match pyGetD d "nodes" (Json.arr []) with
    | Except.error _ => 0
    | Except.ok nodes =>
      match pyLen nodes with
      | Except.error _ => 0
      | Except.ok n => n

/-- The per-structure lines the loop prints for a list of readable
entries, starting at 0-based index `i`. -/
def itemLinesFrom (i : Nat) : List Json → List Line
  | [] => []
  | s :: rest =>
      Line.structureItem (i + 1) (entryName s) (entryNodeCount s)
        :: itemLinesFrom (i + 1) rest

/-- No line of the list is the failure print of the `except` clause. -/
def noFail (ls : List Line) : Prop := ∀ l ∈ ls, isFailLine l = false

/-- A step projection is clean when it never emits the failure line, on
either the success or the abort path. -/
def cleanCont (k : Nat → Json → Except (List Line × String) (List Line)) : Prop :=
  ∀ code body,
    (∀ ls, k code body = Except.ok ls → noFail ls) ∧
    (∀ ls m, k code body = Except.error (ls, m) → noFail ls)

/-- Replace every status code the backend returns according to `σ`,
leaving raises and bodies untouched. -/
def reStatus (σ : Request → Nat) (backend : Request → CallOutcome) :
    Request → CallOutcome := fun r =>
  match backend r with
  | CallOutcome.raise m => CallOutcome.raise m
  | CallOutcome.response _ body => CallOutcome.response (σ r) body

/-- A backend that answers every request with status 200 and body `{}`. -/
def goodBackend : Request → CallOutcome :=
  fun _ => CallOutcome.response 200 (Except.ok (Json.obj []))

/-- The trace of a run against `goodBackend`. -/
def goodTrace : Trace :=
  ⟨fiveRequests,
   [Line.banner,
    Line.stepHeader header1, Line.status 200, Line.rawResponse (Json.obj []), Line.blank,
    Line.stepHeader header2, Line.status 200, Line.userLine Json.null Json.null, Line.blank,
    Line.stepHeader header3, Line.status 200, Line.userLine Json.null Json.null, Line.blank,
    Line.stepHeader header4, Line.status 200, Line.structureLine Json.null Json.null, Line.blank,
    Line.stepHeader header5, Line.status 200, Line.totalStructures 0, Line.blank]⟩

/-- A backend whose every call raises a connection error, as when the
server at the fixed base address is unreachable. -/
def downBackend : Request → CallOutcome :=
  fun _ => CallOutcome.raise "connection refused"

/-- A backend that is well-behaved except that step 5 returns a
`structures` list whose single entry is the integer `5`, on which
`s.get("name")` raises. -/
def badEntryBackend : Request → CallOutcome := fun r =>
  if r.url = BASE_URL ++ "/api/user/john@example.com/structures" then
    CallOutcome.response 200
      (Except.ok (Json.obj [("structures", Json.arr [Json.num 5])]))
  else CallOutcome.response 200 (Except.ok (Json.obj []))

/-- A backend that is well-behaved and returns an empty `structures` list
for step 5. -/
def emptyStructuresBackend : Request → CallOutcome := fun r =>
  if r.url = BASE_URL ++ "/api/user/john@example.com/structures" then
    CallOutcome.response 200 (Except.ok (Json.obj [("structures", Json.arr [])]))
  else CallOutcome.response 200 (Except.ok (Json.obj []))

/-- A backend whose step-5 `structures` list is
`[{"name": "Water", "data": {"nodes": [{}, {}, {}]}}]`. -/
def waterBackend : Request → CallOutcome := fun r =>
  if r.url = BASE_URL ++ "/api/user/john@example.com/structures" then
    CallOutcome.response 200
      (Except.ok (Json.obj [("structures", Json.arr
        [Json.obj [("name", Json.str "Water"),
                   ("data", Json.obj [("nodes",
                      Json.arr [Json.obj [], Json.obj [], Json.obj []])])]])]))
  else CallOutcome.response 200 (Except.ok (Json.obj []))

/-- A backend that behaves like `goodBackend` on every request the script
issues but would raise on any DELETE request. -/
def altBackend : Request → CallOutcome := fun r =>
  if r.method = "DELETE" then CallOutcome.raise "never"
  else CallOutcome.response 200 (Except.ok (Json.obj []))

/-- Filter of `noFail` lists is empty. -/
theorem noFail_filter_nil {l : List Line} (h : noFail l) :
    l.filter isFailLine = [] := by
  induction l with
  | nil => rfl
  | cons x xs ih =>
    have hx : isFailLine x = false := h x (List.mem_cons_self x xs)
    have hxs : noFail xs := fun a ha => h a (List.mem_cons_of_mem x ha)
    simp [List.filter_cons, hx, ih hxs]

theorem noFail_nil : noFail [] := by
  intro l hl
  cases hl

theorem noFail_append {a b : List Line} (ha : noFail a) (hb : noFail b) :
    noFail (a ++ b) := by
  intro l hl
  rcases List.mem_append.mp hl with h | h
  · exact ha l h
  · exact hb l h

theorem noFail_cons {l : Line} {ls : List Line}
    (hl : isFailLine l = false) (hls : noFail ls) : noFail (l :: ls) := by
  intro x hx
  rcases List.mem_cons.mp hx with rfl | hx
  · exact hl
  · exact hls x hx

theorem noFail_two (a b : Line) (ha : isFailLine a = false) (hb : isFailLine b = false) :
    noFail [a, b] :=
  noFail_cons ha (noFail_cons hb noFail_nil)

theorem noFail_of_ok_eq {a ls : List Line}
    (h : (Except.ok a : Except (List Line × String) (List Line)) = Except.ok ls)
    (ha : noFail a) : noFail ls := by
  cases Except.ok.inj h
  exact ha

theorem noFail_of_error_eq {a ls : List Line} {m m' : String}
    (h : (Except.error (a, m') : Except (List Line × String) (List Line))
          = Except.error (ls, m))
    (ha : noFail a) : noFail ls := by
  obtain ⟨h1, h2⟩ := Prod.mk.inj (Except.error.inj h)
  rw [← h1]
  exact ha

theorem cleanCont_registerLines : cleanCont registerLines := by
  intro code body
  constructor
  · intro ls h
    exact noFail_of_ok_eq h (noFail_two _ _ rfl rfl)
  · intro ls m h
    exact Except.noConfusion h

theorem cleanCont_loginLines : cleanCont loginLines := by
  intro code body
  constructor
  · intro ls h
    unfold loginLines at h
    cases h1 : pyGetD body "user" (Json.obj []) with
    | error m => simp only [h1] at h; exact Except.noConfusion h
    | ok u =>
      simp only [h1] at h
      cases h2 : pyGet u "email" with
      | error m => simp only [h2] at h; exact Except.noConfusion h
      | ok email =>
        simp only [h2] at h
        cases h3 : pyGet u "fullName" with
        | error m => simp only [h3] at h; exact Except.noConfusion h
        | ok fullName =>
          simp only [h3] at h
          exact noFail_of_ok_eq h (noFail_two _ _ rfl rfl)
  · intro ls m h
    unfold loginLines at h
    cases h1 : pyGetD body "user" (Json.obj []) with
    | error m' =>
      simp only [h1] at h
      exact noFail_of_error_eq h noFail_nil
    | ok u =>
      simp only [h1] at h
      cases h2 : pyGet u "email" with
      | error m' =>
        simp only [h2] at h
        exact noFail_of_error_eq h noFail_nil
      | ok email =>
        simp only [h2] at h
        cases h3 : pyGet u "fullName" with
        | error m' =>
          simp only [h3] at h
          exact noFail_of_error_eq h noFail_nil
        | ok fullName =>
          simp only [h3] at h
          exact Except.noConfusion h

theorem cleanCont_profileLines : cleanCont profileLines := by
  intro code body
  constructor
  · intro ls h
    unfold profileLines at h
    cases h1 : pyGet body "email" with
    | error m => simp only [h1] at h; exact Except.noConfusion h
    | ok email =>
      simp only [h1] at h
      cases h2 : pyGet body "fullName" with
      | error m => simp only [h2] at h; exact Except.noConfusion h
      | ok fullName =>
        simp only [h2] at h
        exact noFail_of_ok_eq h (noFail_two _ _ rfl rfl)
  · intro ls m h
    unfold profileLines at h
    cases h1 : pyGet body "email" with
    | error m' =>
      simp only [h1] at h
      exact noFail_of_error_eq h noFail_nil
    | ok email =>
      simp only [h1] at h
      cases h2 : pyGet body "fullName" with
      | error m' =>
        simp only [h2] at h
        exact noFail_of_error_eq h noFail_nil
      | ok fullName =>
        simp only [h2] at h
        exact Except.noConfusion h

theorem cleanCont_saveLines : cleanCont saveLines := by
  intro code body
  constructor
  · intro ls h
    unfold saveLines at h
    cases h1 : pyGetD body "structure" (Json.obj []) with
    | error m => simp only [h1] at h; exact Except.noConfusion h
    | ok st =>
      simp only [h1] at h
      cases h2 : pyGet st "name" with
      | error m => simp only [h2] at h; exact Except.noConfusion h
      | ok name =>
        simp only [h2] at h
        cases h3 : pyGet st "id" with
        | error m => simp only [h3] at h; exact Except.noConfusion h
        | ok ident =>
          simp only [h3] at h
          exact noFail_of_ok_eq h (noFail_two _ _ rfl rfl)
  · intro ls m h
    unfold saveLines at h
    cases h1 : pyGetD body "structure" (Json.obj []) with
    | error m' =>
      simp only [h1] at h
      exact noFail_of_error_eq h noFail_nil
    | ok st =>
      simp only [h1] at h
      cases h2 : pyGet st "name" with
      | error m' =>
        simp only [h2] at h
        exact noFail_of_error_eq h noFail_nil
      | ok name =>
        simp only [h2] at h
        cases h3 : pyGet st "id" with
        | error m' =>
          simp only [h3] at h
          exact noFail_of_error_eq h noFail_nil
        | ok ident =>
          simp only [h3] at h
          exact Except.noConfusion h

theorem structuresLoop_noFail (xs : List Json) : ∀ i,
    (∀ ls, structuresLoop i xs = Except.ok ls → noFail ls) ∧
    (∀ ls m, structuresLoop i xs = Except.error (ls, m) → noFail ls) := by
  induction xs with
  | nil =>
    intro i
    constructor
    · intro ls h
      exact noFail_of_ok_eq h noFail_nil
    · intro ls m h
      exact Except.noConfusion h
  | cons s rest ih =>
    intro i
    constructor
    · intro ls h
      unfold structuresLoop at h
      cases h1 : pyGet s "name" with
      | error m => simp only [h1] at h; exact Except.noConfusion h
      | ok name =>
        simp only [h1] at h
        cases h2 : pyGetD s "data" (Json.obj []) with
        | error m => simp only [h2] at h; exact Except.noConfusion h
        | ok d =>
          simp only [h2] at h
          cases h3 : pyGetD d "nodes" (Json.arr []) with
          | error m => simp only [h3] at h; exact Except.noConfusion h
          | ok nodes =>
            simp only [h3] at h
            cases h4 : pyLen nodes with
            | error m => simp only [h4] at h; exact Except.noConfusion h
            | ok cnt =>
              simp only [h4] at h
              cases h5 : structuresLoop (i + 1) rest with
              | error e =>
                obtain ⟨ls', m'⟩ := e
                simp only [h5] at h
                exact Except.noConfusion h
              | ok ls' =>
                simp only [h5] at h
                exact noFail_of_ok_eq h (noFail_cons rfl ((ih (i + 1)).1 ls' h5))
    · intro ls m h
      unfold structuresLoop at h
      cases h1 : pyGet s "name" with
      | error m' =>
        simp only [h1] at h
        exact noFail_of_error_eq h noFail_nil
      | ok name =>
        simp only [h1] at h
        cases h2 : pyGetD s "data" (Json.obj []) with
        | error m' =>
          simp only [h2] at h
          exact noFail_of_error_eq h noFail_nil
        | ok d =>
          simp only [h2] at h
          cases h3 : pyGetD d "nodes" (Json.arr []) with
          | error m' =>
            simp only [h3] at h
            exact noFail_of_error_eq h noFail_nil
          | ok nodes =>
            simp only [h3] at h
            cases h4 : pyLen nodes with
            | error m' =>
              simp only [h4] at h
              exact noFail_of_error_eq h noFail_nil
            | ok cnt =>
              simp only [h4] at h
              cases h5 : structuresLoop (i + 1) rest with
              | error e =>
                obtain ⟨ls', m'⟩ := e
                simp only [h5] at h
                exact noFail_of_error_eq h
                  (noFail_cons rfl ((ih (i + 1)).2 ls' m' h5))
              | ok ls' =>
                simp only [h5] at h
                exact Except.noConfusion h

theorem cleanCont_listLines : cleanCont listLines := by
  intro code body
  constructor
  · intro ls h
    unfold listLines at h
    cases h1 : pyGetD body "structures" (Json.arr []) with
    | error m => simp only [h1] at h; exact Except.noConfusion h
    | ok structures =>
      simp only [h1] at h
      cases h2 : pyLen structures with
      | error m => simp only [h2] at h; exact Except.noConfusion h
      | ok n =>
        simp only [h2] at h
        cases h3 : pyIter structures with
        | error m => simp only [h3] at h; exact Except.noConfusion h
        | ok items =>
          simp only [h3] at h
          cases h4 : structuresLoop 0 items with
          | error e =>
            obtain ⟨ls', m'⟩ := e
            simp only [h4] at h
            exact Except.noConfusion h
          | ok ls' =>
            simp only [h4] at h
            refine noFail_of_ok_eq h (noFail_cons rfl ?_)
            exact noFail_append ((structuresLoop_noFail items 0).1 ls' h4)
              (noFail_cons rfl noFail_nil)
  · intro ls m h
    unfold listLines at h
    cases h1 : pyGetD body "structures" (Json.arr []) with
    | error m' =>
      simp only [h1] at h
      exact noFail_of_error_eq h noFail_nil
    | ok structures =>
      simp only [h1] at h
      cases h2 : pyLen structures with
      | error m' =>
        simp only [h2] at h
        exact noFail_of_error_eq h noFail_nil
      | ok n =>
        simp only [h2] at h
        cases h3 : pyIter structures with
        | error m' =>
          simp only [h3] at h
          exact noFail_of_error_eq h (noFail_cons rfl noFail_nil)
        | ok items =>
          simp only [h3] at h
          cases h4 : structuresLoop 0 items with
          | error e =>
            obtain ⟨ls', m'⟩ := e
            simp only [h4] at h
            exact noFail_of_error_eq h
              (noFail_cons rfl ((structuresLoop_noFail items 0).2 ls' m' h4))
          | ok ls' =>
            simp only [h4] at h
            exact Except.noConfusion h

theorem runStep_ok_cases {backend : Request → CallOutcome} {header : String}
    {req : Request} {k : Nat → Json → Except (List Line × String) (List Line)}
    {t u : Trace}
    (h : runStep backend header req k t = Except.ok u) :
    ∃ code body ls, backend req = CallOutcome.response code (Except.ok body)
      ∧ k code body = Except.ok ls
      ∧ u = ⟨t.requests ++ [req],
             t.output ++ (Line.stepHeader header :: Line.status code :: ls)⟩ := by
  unfold runStep at h
  split at h
  · exact Except.noConfusion h
  · split at h
    · exact Except.noConfusion h
    · split at h
      · exact Except.noConfusion h
      · rename_i x1 code x2 body heqb x3 ls heqk
        exact ⟨code, body, ls, heqb, heqk, (Except.ok.inj h).symm⟩

theorem runStep_error_cases {backend : Request → CallOutcome} {header : String}
    {req : Request} {k : Nat → Json → Except (List Line × String) (List Line)}
    {t u : Trace} {m : String}
    (h : runStep backend header req k t = Except.error (u, m)) :
    u.requests = t.requests ++ [req]
    ∧ (u.output = t.output ++ [Line.stepHeader header]
       ∨ (∃ code, u.output = t.output ++ [Line.stepHeader header, Line.status code])
       ∨ (∃ code body ls, backend req = CallOutcome.response code (Except.ok body)
            ∧ k code body = Except.error (ls, m)
            ∧ u.output = t.output
                ++ (Line.stepHeader header :: Line.status code :: ls))) := by
  unfold runStep at h
  split at h
  · obtain ⟨h1, h2⟩ := Prod.mk.inj (Except.error.inj h)
    rw [← h1]
    exact ⟨rfl, Or.inl rfl⟩
  · split at h
    · rename_i x1 code x2 msg heqb
      obtain ⟨h1, h2⟩ := Prod.mk.inj (Except.error.inj h)
      rw [← h1]
      exact ⟨rfl, Or.inr (Or.inl ⟨code, rfl⟩)⟩
    · split at h
      · rename_i x1 code x2 body heqb x3 ls msg heqk
        obtain ⟨h1, h2⟩ := Prod.mk.inj (Except.error.inj h)
        rw [← h1, ← h2]
        exact ⟨rfl, Or.inr (Or.inr ⟨code, body, ls, heqb, heqk, rfl⟩)⟩
      · exact Except.noConfusion h

theorem runStep_ok_build {backend : Request → CallOutcome} {header : String}
    {req : Request} {k : Nat → Json → Except (List Line × String) (List Line)}
    {code : Nat} {body : Json} {ls : List Line} (t : Trace)
    (hb : backend req = CallOutcome.response code (Except.ok body))
    (hk : k code body = Except.ok ls) :
    runStep backend header req k t =
      Except.ok ⟨t.requests ++ [req],
        t.output ++ (Line.stepHeader header :: Line.status code :: ls)⟩ := by
  unfold runStep
  rw [hb]
  dsimp only
  rw [hk]

theorem runStep_congr {b1 b2 : Request → CallOutcome} {req : Request}
    (header : String) (k : Nat → Json → Except (List Line × String) (List Line))
    (t : Trace) (h : b1 req = b2 req) :
    runStep b1 header req k t = runStep b2 header req k t := by
  unfold runStep
  rw [h]

theorem runStep_ok_facts {backend : Request → CallOutcome} {header : String}
    {req : Request} {k : Nat → Json → Except (List Line × String) (List Line)}
    {t u : Trace} (hk : cleanCont k) (ht : noFail t.output)
    (h : runStep backend header req k t = Except.ok u) :
    u.requests = t.requests ++ [req] ∧ noFail u.output := by
  obtain ⟨code, body, ls, hb, hkk, rfl⟩ := runStep_ok_cases h
  refine ⟨rfl, noFail_append ht (noFail_cons rfl (noFail_cons rfl ?_))⟩
  exact (hk code body).1 ls hkk

theorem runStep_error_facts {backend : Request → CallOutcome} {header : String}
    {req : Request} {k : Nat → Json → Except (List Line × String) (List Line)}
    {t u : Trace} {m : String} (hk : cleanCont k) (ht : noFail t.output)
    (h : runStep backend header req k t = Except.error (u, m)) :
    u.requests = t.requests ++ [req] ∧ noFail u.output := by
  obtain ⟨hreq, hout⟩ := runStep_error_cases h
  refine ⟨hreq, ?_⟩
  rcases hout with h1 | ⟨code, h1⟩ | ⟨code, body, ls, hb, hkk, h1⟩
  · rw [h1]
    exact noFail_append ht (noFail_cons rfl noFail_nil)
  · rw [h1]
    exact noFail_append ht (noFail_two _ _ rfl rfl)
  · rw [h1]
    exact noFail_append ht
      (noFail_cons rfl (noFail_cons rfl ((hk code body).2 ls m hkk)))

theorem noFail_initTrace : noFail initTrace.output :=
  noFail_cons rfl noFail_nil

theorem runSeq_ok_facts {backend : Request → CallOutcome} {t : Trace}
    (h : runSeq backend = Except.ok t) :
    t.requests = fiveRequests ∧ noFail t.output := by
  unfold runSeq at h
  cases h1 : step1 backend initTrace with
  | error e => simp only [h1] at h; exact Except.noConfusion h
  | ok t1 =>
    simp only [h1] at h
    unfold step1 at h1
    have f1 := runStep_ok_facts cleanCont_registerLines noFail_initTrace h1
    cases h2 : step2 backend t1 with
    | error e => simp only [h2] at h; exact Except.noConfusion h
    | ok t2 =>
      simp only [h2] at h
      unfold step2 at h2
      have f2 := runStep_ok_facts cleanCont_loginLines f1.2 h2
      cases h3 : step3 backend t2 with
      | error e => simp only [h3] at h; exact Except.noConfusion h
      | ok t3 =>
        simp only [h3] at h
        unfold step3 at h3
        have f3 := runStep_ok_facts cleanCont_profileLines f2.2 h3
        cases h4 : step4 backend t3 with
        | error e => simp only [h4] at h; exact Except.noConfusion h
        | ok t4 =>
          simp only [h4] at h
          unfold step4 at h4
          have f4 := runStep_ok_facts cleanCont_saveLines f3.2 h4
          unfold step5 at h
          have f5 := runStep_ok_facts cleanCont_listLines f4.2 h
          refine ⟨?_, f5.2⟩
          rw [f5.1, f4.1, f3.1, f2.1, f1.1]
          rfl

theorem runSeq_error_facts {backend : Request → CallOutcome} {t : Trace} {m : String}
    (h : runSeq backend = Except.error (t, m)) :
    (∃ rest, t.requests ++ rest = fiveRequests) ∧ noFail t.output := by
  unfold runSeq at h
  cases h1 : step1 backend initTrace with
  | error e =>
    obtain ⟨t', m'⟩ := e
    simp only [h1] at h
    obtain ⟨he1, he2⟩ := Prod.mk.inj (Except.error.inj h)
    subst he1
    unfold step1 at h1
    have f1 := runStep_error_facts cleanCont_registerLines noFail_initTrace h1
    refine ⟨⟨[loginRequest, profileRequest, saveStructureRequest, structuresRequest], ?_⟩, f1.2⟩
    rw [f1.1]
    rfl
  | ok t1 =>
    simp only [h1] at h
    unfold step1 at h1
    have f1 := runStep_ok_facts cleanCont_registerLines noFail_initTrace h1
    cases h2 : step2 backend t1 with
    | error e =>
      obtain ⟨t', m'⟩ := e
      simp only [h2] at h
      obtain ⟨he1, he2⟩ := Prod.mk.inj (Except.error.inj h)
      subst he1
      unfold step2 at h2
      have f2 := runStep_error_facts cleanCont_loginLines f1.2 h2
      refine ⟨⟨[profileRequest, saveStructureRequest, structuresRequest], ?_⟩, f2.2⟩
      rw [f2.1, f1.1]
      rfl
    | ok t2 =>
      simp only [h2] at h
      unfold step2 at h2
      have f2 := runStep_ok_facts cleanCont_loginLines f1.2 h2
      cases h3 : step3 backend t2 with
      | error e =>
        obtain ⟨t', m'⟩ := e
        simp only [h3] at h
        obtain ⟨he1, he2⟩ := Prod.mk.inj (Except.error.inj h)
        subst he1
        unfold step3 at h3
        have f3 := runStep_error_facts cleanCont_profileLines f2.2 h3
        refine ⟨⟨[saveStructureRequest, structuresRequest], ?_⟩, f3.2⟩
        rw [f3.1, f2.1, f1.1]
        rfl
      | ok t3 =>
        simp only [h3] at h
        unfold step3 at h3
        have f3 := runStep_ok_facts cleanCont_profileLines f2.2 h3
        cases h4 : step4 backend t3 with
        | error e =>
          obtain ⟨t', m'⟩ := e
          simp only [h4] at h
          obtain ⟨he1, he2⟩ := Prod.mk.inj (Except.error.inj h)
          subst he1
          unfold step4 at h4
          have f4 := runStep_error_facts cleanCont_saveLines f3.2 h4
          refine ⟨⟨[structuresRequest], ?_⟩, f4.2⟩
          rw [f4.1, f3.1, f2.1, f1.1]
          rfl
        | ok t4 =>
          simp only [h4] at h
          unfold step4 at h4
          have f4 := runStep_ok_facts cleanCont_saveLines f3.2 h4
          unfold step5 at h
          have f5 := runStep_error_facts cleanCont_listLines f4.2 h
          refine ⟨⟨[], ?_⟩, f5.2⟩
          rw [List.append_nil, f5.1, f4.1, f3.1, f2.1, f1.1]
          rfl

theorem runSeq_congr {b1 b2 : Request → CallOutcome}
    (h : ∀ r ∈ fiveRequests, b1 r = b2 r) : runSeq b1 = runSeq b2 := by
  have e1 : b1 registerRequest = b2 registerRequest :=
    h _ (by simp [fiveRequests])
  have e2 : b1 loginRequest = b2 loginRequest :=
    h _ (by simp [fiveRequests])
  have e3 : b1 profileRequest = b2 profileRequest :=
    h _ (by simp [fiveRequests])
  have e4 : b1 saveStructureRequest = b2 saveStructureRequest :=
    h _ (by simp [fiveRequests])
  have e5 : b1 structuresRequest = b2 structuresRequest :=
    h _ (by simp [fiveRequests])
  unfold runSeq step1 step2 step3 step4 step5
  rw [runStep_congr header1 registerLines initTrace e1]
  simp only [runStep_congr header2 loginLines _ e2,
    runStep_congr header3 profileLines _ e3,
    runStep_congr header4 saveLines _ e4,
    runStep_congr header5 listLines _ e5]

theorem reStatus_response {backend : Request → CallOutcome} {req : Request}
    {code : Nat} {body : Except String Json} (σ : Request → Nat)
    (h : backend req = CallOutcome.response code body) :
    reStatus σ backend req = CallOutcome.response (σ req) body := by
  unfold reStatus
  rw [h]

theorem runSeq_restatus_ok {backend : Request → CallOutcome} {t : Trace}
    (σ : Request → Nat) (h : runSeq backend = Except.ok t) :
    ∃ u, runSeq (reStatus σ backend) = Except.ok u := by
  unfold runSeq at h
  cases h1 : step1 backend initTrace with
  | error e => simp only [h1] at h; exact Except.noConfusion h
  | ok t1 =>
    simp only [h1] at h
    cases h2 : step2 backend t1 with
    | error e => simp only [h2] at h; exact Except.noConfusion h
    | ok t2 =>
      simp only [h2] at h
      cases h3 : step3 backend t2 with
      | error e => simp only [h3] at h; exact Except.noConfusion h
      | ok t3 =>
        simp only [h3] at h
        cases h4 : step4 backend t3 with
        | error e => simp only [h4] at h; exact Except.noConfusion h
        | ok t4 =>
          simp only [h4] at h
          unfold step1 at h1
          unfold step2 at h2
          unfold step3 at h3
          unfold step4 at h4
          unfold step5 at h
          obtain ⟨c1, b1, ls1, hb1, hk1, ht1⟩ := runStep_ok_cases h1
          obtain ⟨c2, b2, ls2, hb2, hk2, ht2⟩ := runStep_ok_cases h2
          obtain ⟨c3, b3, ls3, hb3, hk3, ht3⟩ := runStep_ok_cases h3
          obtain ⟨c4, b4, ls4, hb4, hk4, ht4⟩ := runStep_ok_cases h4
          obtain ⟨c5, b5, ls5, hb5, hk5, ht5⟩ := runStep_ok_cases h
          unfold runSeq step1 step2 step3 step4 step5
          simp only [runStep_ok_build _ (reStatus_response σ hb1)
              (show registerLines (σ registerRequest) b1 = Except.ok ls1 from hk1),
            runStep_ok_build _ (reStatus_response σ hb2)
              (show loginLines (σ loginRequest) b2 = Except.ok ls2 from hk2),
            runStep_ok_build _ (reStatus_response σ hb3)
              (show profileLines (σ profileRequest) b3 = Except.ok ls3 from hk3),
            runStep_ok_build _ (reStatus_response σ hb4)
              (show saveLines (σ saveStructureRequest) b4 = Except.ok ls4 from hk4),
            runStep_ok_build _ (reStatus_response σ hb5)
              (show listLines (σ structuresRequest) b5 = Except.ok ls5 from hk5)]
          exact ⟨_, rfl⟩

theorem structuresLoop_ok_of_entryOk (xs : List Json) : ∀ i,
    (∀ s ∈ xs, entryOk s = true) →
    structuresLoop i xs = Except.ok (itemLinesFrom i xs) := by
  induction xs with
  | nil =>
    intro i hok
    rfl
  | cons s rest ih =>
    intro i hok
    have hs := hok s (List.mem_cons_self s rest)
    have hrest : ∀ x ∈ rest, entryOk x = true :=
      fun x hx => hok x (List.mem_cons_of_mem s hx)
    unfold entryOk at hs
    cases h1 : pyGet s "name" with
    | error m => simp only [h1] at hs; exact Bool.noConfusion hs
    | ok name =>
      simp only [h1] at hs
      cases h2 : pyGetD s "data" (Json.obj []) with
      | error m => simp only [h2] at hs; exact Bool.noConfusion hs
      | ok d =>
        simp only [h2] at hs
        cases h3 : pyGetD d "nodes" (Json.arr []) with
        | error m => simp only [h3] at hs; exact Bool.noConfusion hs
        | ok nodes =>
          simp only [h3] at hs
          cases h4 : pyLen nodes with
          | error m => simp only [h4] at hs; exact Bool.noConfusion hs
          | ok cnt =>
            unfold structuresLoop itemLinesFrom entryName entryNodeCount
            simp only [h1, h2, h3, h4, ih (i + 1) hrest]

theorem itemLinesFrom_length (xs : List Json) : ∀ i,
    (itemLinesFrom i xs).length = xs.length := by
  induction xs with
  | nil => intro i; rfl
  | cons s rest ih =>
    intro i
    unfold itemLinesFrom
    simp only [List.length_cons, ih (i + 1)]

theorem itemLinesFrom_getD (xs : List Json) : ∀ i j, j < xs.length →
    (itemLinesFrom i xs).getD j Line.blank
      = Line.structureItem (i + j + 1) (entryName (xs.getD j Json.null))
          (entryNodeCount (xs.getD j Json.null)) := by
  induction xs with
  | nil =>
    intro i j hj
    exact absurd hj (Nat.not_lt_zero j)
  | cons s rest ih =>
    intro i j hj
    cases j with
    | zero => rfl
    | succ j' =>
      have hrec := ih (i + 1) j' (Nat.lt_of_succ_lt_succ hj)
      have harith : i + (j' + 1) + 1 = i + 1 + j' + 1 := by omega
      rw [harith]
      exact hrec

theorem getLast_append_one (l : List Line) (a : Line) :
    (l ++ [a]).getLast? = some a := by
  induction l with
  | nil => rfl
  | cons x xs ih =>
    rw [List.cons_append, List.getLast?_cons, ih]
    rfl

/-- C1: when every step succeeds (the try-block runs to completion), the
script performs exactly five HTTP calls, in the fixed order register,
login, get-profile, save-structure, get-structures, and no other calls. -/
theorem five_calls_in_fixed_order (backend : Request → CallOutcome) (t : Trace)
    (h : runSeq backend = Except.ok t) :
    (run backend).requests
      = [registerRequest, loginRequest, profileRequest,
         saveStructureRequest, structuresRequest] := by
  unfold run
  rw [h]
  exact (runSeq_ok_facts h).1

/-- Witness for C1: a backend answering every request with status 200 and
body `{}` makes every step succeed. -/
theorem five_calls_in_fixed_order_witness :
    (run goodBackend).requests
      = [registerRequest, loginRequest, profileRequest,
         saveStructureRequest, structuresRequest] :=
  five_calls_in_fixed_order goodBackend goodTrace rfl

/-- C2: whenever a step raises, the remaining steps are skipped (the
requests attempted stay a prefix of the five planned calls and nothing is
attempted after the failing one), and exactly one failure message is
printed, rendered with the exception text inside. -/
theorem exception_aborts_and_prints_once (backend : Request → CallOutcome)
    (t : Trace) (msg : String) (h : runSeq backend = Except.error (t, msg)) :
    (run backend).requests = t.requests
    ∧ (∃ rest, t.requests ++ rest = fiveRequests)
    ∧ (run backend).output.filter isFailLine = [Line.failure msg]
    ∧ renderLine (Line.failure msg) = "❌ Error: " ++ msg ++ "\n" := by
  have hf := runSeq_error_facts h
  have hrun : run backend = ⟨t.requests, t.output ++ [Line.failure msg]⟩ := by
    unfold run
    rw [h]
  refine ⟨by rw [hrun], hf.1, ?_, rfl⟩
  rw [hrun]
  show (t.output ++ [Line.failure msg]).filter isFailLine = [Line.failure msg]
  rw [List.filter_append, noFail_filter_nil hf.2]
  rfl

/-- Witness for C2: with the backend unreachable, only the register call is
attempted and one failure message is printed. -/
theorem exception_aborts_and_prints_once_witness :
    (run downBackend).requests = [registerRequest]
    ∧ (∃ rest, [registerRequest] ++ rest = fiveRequests)
    ∧ (run downBackend).output.filter isFailLine
        = [Line.failure "connection refused"]
    ∧ renderLine (Line.failure "connection refused")
        = "❌ Error: " ++ "connection refused" ++ "\n" :=
  exception_aborts_and_prints_once downBackend
    ⟨[registerRequest], [Line.banner, Line.stepHeader header1]⟩
    "connection refused" rfl

/-- C3: the catch-all swallows every exception: the module always returns
normally, so the process exit status is 0 regardless of the backend. -/
theorem always_exits_zero (backend : Request → CallOutcome) :
    moduleResult backend = Except.ok (run backend)
    ∧ exitCode (moduleResult backend) = 0 := by
  unfold moduleResult run exitCode
  cases h : runSeq backend with
  | ok t => exact ⟨rfl, rfl⟩
  | error e =>
    obtain ⟨t, m⟩ := e
    exact ⟨rfl, rfl⟩

/-- C4 counterexample: when the step-5 `structures` array is `[5]`, the
count line prints 1 yet zero per-structure lines are printed (the loop
raises on its first entry and the run ends in a failure message), so the
counts do not match as the claim states. -/
theorem structures_listing_counts_cex :
    (run badEntryBackend).output.filterMap totalValue = [1]
    ∧ (run badEntryBackend).output.countP isItemLine = 0
    ∧ (run badEntryBackend).output.countP isFailLine = 1 :=
  ⟨rfl, rfl, rfl⟩

/-- C4 (amended): for every step-5 response whose body contains a
`structures` array all of whose entries support the per-entry accesses,
the printed Total Structures count equals the array length and exactly
that many per-structure lines are printed, 1-based in array order, each
showing the entry name and its `data.nodes` count. -/
theorem structures_listing_counts (backend : Request → CallOutcome) (t : Trace)
    (code : Nat) (body : Json) (arr : List Json)
    (hb : backend structuresRequest = CallOutcome.response code (Except.ok body))
    (hs : pyGetD body "structures" (Json.arr []) = Except.ok (Json.arr arr))
    (hok : ∀ s ∈ arr, entryOk s = true) :
    step5 backend t = Except.ok ⟨t.requests ++ [structuresRequest],
      t.output ++ (Line.stepHeader header5 :: Line.status code ::
        Line.totalStructures arr.length :: (itemLinesFrom 0 arr ++ [Line.blank]))⟩
    ∧ (itemLinesFrom 0 arr).length = arr.length
    ∧ (∀ j, j < arr.length →
        (itemLinesFrom 0 arr).getD j Line.blank
          = Line.structureItem (j + 1) (entryName (arr.getD j Json.null))
              (entryNodeCount (arr.getD j Json.null))) := by
  have hlist : listLines code body
      = Except.ok (Line.totalStructures arr.length
          :: (itemLinesFrom 0 arr ++ [Line.blank])) := by
    simp only [listLines, hs, pyLen, pyIter,
      structuresLoop_ok_of_entryOk arr 0 hok]
  refine ⟨?_, itemLinesFrom_length arr 0, ?_⟩
  · unfold step5
    exact runStep_ok_build t hb hlist
  · intro j hj
    have hg := itemLinesFrom_getD arr 0 j hj
    rw [Nat.zero_add] at hg
    exact hg

/-- Witness for C4 at the empty-structures backend. -/
theorem structures_listing_counts_witness :
    step5 emptyStructuresBackend initTrace = Except.ok ⟨[structuresRequest],
      [Line.banner, Line.stepHeader header5, Line.status 200,
       Line.totalStructures 0, Line.blank]⟩
    ∧ (itemLinesFrom 0 ([] : List Json)).length = 0
    ∧ (∀ j, j < 0 →
        (itemLinesFrom 0 ([] : List Json)).getD j Line.blank
          = Line.structureItem (j + 1) (entryName (List.getD [] j Json.null))
              (entryNodeCount (List.getD [] j Json.null))) :=
  structures_listing_counts emptyStructuresBackend initTrace 200
    (Json.obj [("structures", Json.arr [])]) []
    rfl rfl (fun s hs => absurd hs (List.not_mem_nil s))

/-- C5: absent nested fields do not raise: with the `user`, `email`,
`fullName`, `structure` and `structures` keys all absent from a dict body,
every step projection succeeds and renders the None/empty defaults. -/
theorem missing_fields_do_not_raise (kvs : List (String × Json)) (code : Nat)
    (hu : kvs.lookup "user" = none)
    (he : kvs.lookup "email" = none)
    (hf : kvs.lookup "fullName" = none)
    (hst : kvs.lookup "structure" = none)
    (hss : kvs.lookup "structures" = none) :
    loginLines code (Json.obj kvs)
      = Except.ok [Line.userLine Json.null Json.null, Line.blank]
    ∧ profileLines code (Json.obj kvs)
      = Except.ok [Line.userLine Json.null Json.null, Line.blank]
    ∧ saveLines code (Json.obj kvs)
      = Except.ok [Line.structureLine Json.null Json.null, Line.blank]
    ∧ listLines code (Json.obj kvs)
      = Except.ok [Line.totalStructures 0, Line.blank]
    ∧ renderLine (Line.userLine Json.null Json.null) = "   User: None - None"
    ∧ renderLine (Line.structureLine Json.null Json.null)
        = "   Structure: None (ID: None)" := by
  refine ⟨?_, ?_, ?_, ?_, rfl, rfl⟩
  · simp [loginLines, pyGet, pyGetD, hu]
  · simp [profileLines, pyGet, pyGetD, he, hf]
  · simp [saveLines, pyGet, pyGetD, hst]
  · simp [listLines, pyGet, pyGetD, hss, pyLen, pyIter, structuresLoop]

/-- Witness for C5 at the empty dict body. -/
theorem missing_fields_do_not_raise_witness :
    loginLines 200 (Json.obj [])
      = Except.ok [Line.userLine Json.null Json.null, Line.blank]
    ∧ profileLines 200 (Json.obj [])
      = Except.ok [Line.userLine Json.null Json.null, Line.blank]
    ∧ saveLines 200 (Json.obj [])
      = Except.ok [Line.structureLine Json.null Json.null, Line.blank]
    ∧ listLines 200 (Json.obj [])
      = Except.ok [Line.totalStructures 0, Line.blank]
    ∧ renderLine (Line.userLine Json.null Json.null) = "   User: None - None"
    ∧ renderLine (Line.structureLine Json.null Json.null)
        = "   Structure: None (ID: None)" :=
  missing_fields_do_not_raise [] 200 rfl rfl rfl rfl rfl

/-- C6: an empty `structures` array at step 5 yields a single Total
Structures line with value 0 and no per-item lines. -/
theorem empty_structures_listing :
    (run emptyStructuresBackend).output.filterMap totalValue = [0]
    ∧ (run emptyStructuresBackend).output.countP isItemLine = 0
    ∧ renderLine (Line.totalStructures 0) = "   Total Structures: 0" :=
  ⟨rfl, rfl, rfl⟩

/-- C7: a structures list with the single Water entry of three nodes yields
exactly one per-item line reading `[1] Water (3 nodes)`. -/
theorem water_structure_line :
    (run waterBackend).output.filterMap itemText = ["   [1] Water (3 nodes)"]
    ∧ (run waterBackend).output.countP isItemLine = 1 :=
  ⟨rfl, rfl⟩

/-- C8: steps 3, 4 and 5 are scoped to the same user identifier as steps 1
and 2: the email in the three GET/POST URLs equals the `email` field of the
register and login payloads. -/
theorem same_user_identifier_everywhere :
    ∃ e : String,
      pyGet registerPayload "email" = Except.ok (Json.str e)
      ∧ pyGet loginPayload "email" = Except.ok (Json.str e)
      ∧ profileRequest.url = BASE_URL ++ ("/api/user/" ++ e)
      ∧ saveStructureRequest.url = BASE_URL ++ ("/api/user/" ++ (e ++ "/save-structure"))
      ∧ structuresRequest.url = BASE_URL ++ ("/api/user/" ++ (e ++ "/structures")) :=
  ⟨"john@example.com", rfl, rfl, rfl, rfl, rfl⟩

/-- C9: response status codes are never checked: rewriting every status
code (for example to 500) preserves completion of all five steps, and the
success banner is still the last line printed; the status is only data. -/
theorem status_codes_never_checked (backend : Request → CallOutcome)
    (σ : Request → Nat) (t : Trace) (h : runSeq backend = Except.ok t) :
    ∃ u, runSeq (reStatus σ backend) = Except.ok u
      ∧ u.requests = fiveRequests
      ∧ (run (reStatus σ backend)).output.getLast? = some Line.success := by
  obtain ⟨u, hu⟩ := runSeq_restatus_ok σ h
  refine ⟨u, hu, (runSeq_ok_facts hu).1, ?_⟩
  unfold run
  rw [hu]
  exact getLast_append_one u.output Line.success

/-- Witness for C9: every status rewritten to 500 on the all-200 backend. -/
theorem status_codes_never_checked_witness :
    ∃ u, runSeq (reStatus (fun _ => 500) goodBackend) = Except.ok u
      ∧ u.requests = fiveRequests
      ∧ (run (reStatus (fun _ => 500) goodBackend)).output.getLast?
          = some Line.success :=
  status_codes_never_checked goodBackend (fun _ => 500) goodTrace rfl

/-- C10: the trace (requests and printed output) is a deterministic
function of the backend responses to the five fixed requests: two backends
that answer those five requests identically produce identical runs. -/
theorem deterministic_in_responses (b1 b2 : Request → CallOutcome)
    (h : ∀ r ∈ fiveRequests, b1 r = b2 r) : run b1 = run b2 := by
  unfold run
  rw [runSeq_congr h]

/-- Witness for C10: `goodBackend` and `altBackend` agree on the five
requests, so their runs coincide. -/
theorem deterministic_in_responses_witness : run goodBackend = run altBackend :=
  deterministic_in_responses goodBackend altBackend (by
    intro r hr
    simp only [fiveRequests] at hr
    fin_cases hr <;> rfl)
